import Mathlib

/-!
Shallow embedding of src/news_reader.py (Tkinter + asyncio RSS reader).

External library functions are modelled as parameters or oracles:
  * Python stdlib html.unescape is an abstract parameter u : String → String;
  * str.strip is implemented concretely as pyStrip;
  * the network plus PIL image decode for one image URL is an oracle
    fetchImage : String → Option α (none models any per-image failure:
    network error, non-2xx status, timeout, or decode error);
  * xml.etree parsing is modelled by presenting the parsed entries
    (ItemEl) directly, or (for the error path) a parse oracle returning
    Except.

Elements of parsed documents are modelled by their observable fields:
an RSS item by the optional title/link elements (each with optional text,
as xml.etree represents a text-less element by a None text) and the list
of category texts; an article page by its paragraph texts and image src
attributes in document order.
-/

namespace NewsReader

/-- Characters removed by Python str.strip with no arguments (ASCII range). -/
def isPySpace (c : Char) : Bool :=
  c == ' ' || c == '\t' || c == '\n' || c == '\r' || c == '\x0b' || c == '\x0c'

/-- Model of Python str.strip: drop leading and trailing whitespace. -/
def pyStrip (s : String) : String :=
  String.mk (((s.toList.dropWhile isPySpace).reverse.dropWhile isPySpace).reverse)

/-- Article record, news_reader.py lines 22-26. -/
structure Article where
  title : String
  link : String
  categories : List String
deriving DecidableEq, Repr

/-- One RSS item element as xml.etree exposes it: the title and link
sub-elements may be absent (outer none) or present with an optional text
node (xml.etree gives text None for an empty element), and zero or more
category elements each carrying an optional text node. -/
structure ItemEl where
  title : Option (Option String)
  link : Option (Option String)
  categories : List (Option String)
deriving DecidableEq, Repr

/-- Model of Element.findtext(path, default=dflt): the default if no
element matches, the empty string if the element has no text node, the
text otherwise. -/
def findtext (field : Option (Option String)) (dflt : String) : String :=
  match field with
  | none => dflt
  | some none => ""
  | some (some t) => t

/-- Title extraction for one item, news_reader.py line 226:
html.unescape(item_el.findtext("title", default="(Không tiêu đề)")). -/
def itemTitle (u : String → String) (it : ItemEl) : String :=
  u (findtext it.title "(Không tiêu đề)")

/-- Link extraction for one item, news_reader.py line 227:
item_el.findtext("link", default=""). -/
def itemLink (it : ItemEl) : String :=
  findtext it.link ""

/-- Category extraction for one item, news_reader.py line 228:
[html.unescape(cat.text.strip()) for cat in item_el.findall("category")
 if cat.text]. The Python guard `if cat.text` keeps exactly the
categories whose text is neither None nor the empty string. -/
def itemCategories (u : String → String) (it : ItemEl) : List String :=
  it.categories.filterMap (fun c =>
    match c with
    | some t => if t ≠ "" then some (u (pyStrip t)) else none
    | none => none)

/-- The Article built from one kept item, news_reader.py line 230. -/
def mkArticle (u : String → String) (it : ItemEl) : Article :=
  { title := itemTitle u it, link := itemLink it, categories := itemCategories u it }

/-- The item loop of fetch_rss, news_reader.py lines 225-231: build
title/link/categories for each item and append an Article only when the
extracted link string is truthy (non-empty). -/
def parseItems (u : String → String) : List ItemEl → List Article
  | [] => []
  | it :: rest =>
    if itemLink it ≠ "" then mkArticle u it :: parseItems u rest
    else parseItems u rest

/-- Failure of a whole feed-fetch task: a transport error (connection
failure, non-2xx raised by raise_for_status, timeout) or a parse error
raised by ET.fromstring. -/
inductive FeedError where
  | transport (msg : String)
  | parseFail (msg : String)
deriving DecidableEq, Repr

/-- Message carried by a feed error, as str(exc) renders it. -/
def FeedError.message : FeedError → String
  | .transport m => m
  | .parseFail m => m

/-- Whole fetch_rss pipeline, news_reader.py lines 216-231. The HTTP
round-trip is presented as its outcome (body or transport error) and
XML parsing as an oracle from the body to parsed items or a parse
error; both kinds of exception propagate out of the coroutine and fail
the task as a whole. -/
def fetch_rss (u : String → String) (http : Except String String)
    (parseXml : String → Except String (List ItemEl)) :
    Except FeedError (List Article) :=
  match http with
  | .error e => .error (.transport e)
  | .ok body =>
    match parseXml body with
    | .error e => .error (.parseFail e)
    | .ok items => .ok (parseItems u items)

/-- UI-thread actions scheduled (via root.after) by the feed result
handler. -/
inductive UIAction where
  | showError (title msg : String)
  | populate (articles : List Article)
  | enableLoadButton
deriving DecidableEq, Repr

/-- Model of _handle_feed_result, news_reader.py lines 206-214: the
actions it schedules on the UI thread, in order. The try/except around
fut.result() is total — every failure lands in the error branch, so no
exception escapes the callback. -/
def handle_feed_result (res : Except FeedError (List Article)) : List UIAction :=
  match res with
  | .error e => [UIAction.showError "Lỗi tải RSS" e.message, UIAction.enableLoadButton]
  | .ok arts => [UIAction.populate arts, UIAction.enableLoadButton]

/-- One paragraph element of the article page, by its text content
(what p.get_text() returns before stripping). -/
structure PEl where
  text : String
deriving DecidableEq, Repr

/-- One img element of the article page, by its optional src attribute. -/
structure ImgEl where
  src : Option String
deriving DecidableEq, Repr

/-- A parsed article page: paragraph elements and image elements, each
list in document order. -/
structure ArticleDoc where
  ps : List PEl
  imgs : List ImgEl
deriving DecidableEq, Repr

/-- Paragraph extraction of fetch_article, news_reader.py lines 286-288:
[html.unescape(p.get_text(strip=True)) for p in soup.find_all("p")
 if p.get_text(strip=True)]. -/
def paragraphsOf (u : String → String) : List PEl → List String
  | [] => []
  | p :: rest =>
    if pyStrip p.text ≠ "" then u (pyStrip p.text) :: paragraphsOf u rest
    else paragraphsOf u rest

/-- Image loop of fetch_article, news_reader.py lines 290-303: skip an
element whose src is missing or empty (`if not src: continue`); then try
to fetch and decode, appending on success and swallowing any failure
(`except Exception: continue`). The oracle models GET + decode_RGB. -/
def imagesOf {α : Type} (fetchImage : String → Option α) : List ImgEl → List α
  | [] => []
  | el :: rest =>
    match el.src with
    | none => imagesOf fetchImage rest
    | some s =>
      if s = "" then imagesOf fetchImage rest
      else
        match fetchImage s with
        | some im => im :: imagesOf fetchImage rest
        | none => imagesOf fetchImage rest

/-- Result of fetch_article on a successfully fetched and parsed page,
news_reader.py lines 278-305: the paragraph list and the image list. -/
def fetch_article {α : Type} (u : String → String) (fetchImage : String → Option α)
    (doc : ArticleDoc) : List String × List α :=
  (paragraphsOf u doc.ps, imagesOf fetchImage doc.imgs)

/-- One body item rendered by display_article: a paragraph of text or an
inline image. -/
inductive DisplayItem (α : Type) where
  | para (text : String)
  | image (im : α)
deriving DecidableEq, Repr

/-- Body interleave of display_article, news_reader.py lines 320-339:
iterate over the paragraphs, inserting each, and after each paragraph
insert the next image from an iterator over the images if one remains
(StopIteration just continues the paragraph loop); afterwards append any
leftover images. _prepare_image_for_display always returns a photo, so
every image taken from the iterator is displayed. -/
def display_article_body {α : Type} : List String → List α → List (DisplayItem α)
  | [], imgs => imgs.map DisplayItem.image
  | p :: ps, [] => DisplayItem.para p :: display_article_body ps []
  | p :: ps, im :: imgs =>
    DisplayItem.para p :: DisplayItem.image im :: display_article_body ps imgs

/-- Strict positional pairing of paragraphs with images, used to state
the interleaving property. -/
def zipInterleave {α : Type} : List (String × α) → List (DisplayItem α)
  | [] => []
  | (p, im) :: rest => DisplayItem.para p :: DisplayItem.image im :: zipInterleave rest

/-- UI-layer state touched by populate_list, news_reader.py lines 71-74
and 233-250. treeRows models the Treeview rows as (title, category
label) pairs; contentText the text widget contents; α is the photo
image type held by image_refs. -/
structure UIState (α : Type) where
  articles : List Article
  treeRows : List (String × String)
  contentText : String
  imageRefs : List α
  categoryVar : String
  currentArticleLink : Option String
  currentCategories : List String
  linkButtonEnabled : Bool
deriving DecidableEq, Repr

/-- Category column label, news_reader.py line 238:
", ".join(art.categories) if art.categories else "-". -/
def categoryLabel (cats : List String) : String :=
  if cats ≠ [] then String.intercalate ", " cats else "-"

/-- Model of populate_list, news_reader.py lines 233-250: store the new
article list, rebuild the tree rows from scratch (all previous rows are
deleted first), clear the content pane (inserting the empty-feed notice
when the list is empty), drop held image references, and reset the
category label, current link, current categories and link button. The
previous state is never read. -/
def populate_list {α : Type} (_st : UIState α) (articles : List Article) : UIState α :=
  { articles := articles
    treeRows := articles.map (fun a => (a.title, categoryLabel a.categories))
    contentText := if articles = [] then "Không tìm thấy bài viết nào." else ""
    imageRefs := []
    categoryVar := "Danh mục: -"
    currentArticleLink := none
    currentCategories := []
    linkButtonEnabled := false }

/-- Outcome of one unit of work submitted to the asyncio thread:
success with a value or failure with an error message. -/
inductive Outcome (α : Type) where
  | ok (v : α)
  | err (msg : String)
deriving DecidableEq, Repr

/-- Dispatcher state: units of work submitted but not yet completed
(each tagged with its id and its eventual outcome), and the UI-thread
callbacks scheduled so far, in scheduling order. -/
structure DispatchState (α : Type) where
  pending : List (Nat × Outcome α)
  delivered : List (Nat × Outcome α)
deriving DecidableEq, Repr

/-- One dispatcher step: any pending unit of work completes; its future
becomes done, its done-callback (news_reader.py lines 204, 206-214)
runs exactly once and schedules via root.after exactly one UI-thread
callback carrying the outcome. A completed unit leaves pending, so its
callback can never fire again. -/
inductive DStep {α : Type} : DispatchState α → DispatchState α → Prop
  | complete (i : Nat) (o : Outcome α) (p1 p2 d : List (Nat × Outcome α)) :
      DStep ⟨p1 ++ (i, o) :: p2, d⟩ ⟨p1 ++ p2, d ++ [(i, o)]⟩

/-- Zero or more dispatcher steps. -/
def DSteps {α : Type} : DispatchState α → DispatchState α → Prop :=
  Relation.ReflTransGen DStep

/-! Helper lemmas (shared by the claim theorems). -/

/-- The item loop keeps exactly the items with a non-empty extracted
link, in order, building an Article from each. -/
theorem parseItems_eq (u : String → String) :
    ∀ items : List ItemEl,
      parseItems u items
        = (items.filter (fun it => decide (itemLink it ≠ ""))).map (mkArticle u)
  | [] => rfl
  | it :: rest => by
    by_cases h : itemLink it ≠ "" <;>
      simp [parseItems, h, List.filter_cons, parseItems_eq u rest]

/-- The paragraph extraction keeps, in order, the unescape of the
stripped text of exactly the paragraph elements whose stripped text is
non-empty. -/
theorem paragraphsOf_eq (u : String → String) :
    ∀ ps : List PEl,
      paragraphsOf u ps
        = ((ps.map (fun p => pyStrip p.text)).filter (fun t => decide (t ≠ ""))).map u
  | [] => rfl
  | p :: rest => by
    by_cases h : pyStrip p.text ≠ "" <;>
      simp [paragraphsOf, h, List.filter_cons, paragraphsOf_eq u rest]

/-- The image loop collects, in document order, exactly the successful
fetch-and-decode results of the non-empty src attributes. -/
theorem imagesOf_eq (α : Type) (f : String → Option α) :
    ∀ l : List ImgEl,
      imagesOf f l
        = l.filterMap (fun el => el.src.bind (fun s => if s = "" then none else f s))
  | [] => rfl
  | ⟨src⟩ :: rest => by
    cases src with
    | none => simp [imagesOf, List.filterMap_cons, imagesOf_eq α f rest]
    | some s =>
      by_cases hs : s = ""
      · simp [imagesOf, hs, List.filterMap_cons, imagesOf_eq α f rest]
      · cases hf : f s <;>
          simp [imagesOf, hs, hf, List.filterMap_cons, imagesOf_eq α f rest]

/-- Making the fetch oracle fail on one src removes exactly the images
of the elements carrying that src, leaving the rest untouched. -/
theorem imagesOf_fail_one (α : Type) (f : String → Option α) (s0 : String) :
    ∀ l : List ImgEl,
      imagesOf (fun s => if s = s0 then none else f s) l
        = imagesOf f (l.filter (fun el => decide (el.src ≠ some s0)))
  | [] => rfl
  | ⟨src⟩ :: rest => by
    cases src with
    | none => simp [imagesOf, List.filter_cons, imagesOf_fail_one α f s0 rest]
    | some s =>
      by_cases h0 : s = s0
      · subst h0
        by_cases hs : s = ""
        · subst hs
          simp [imagesOf, List.filter_cons, imagesOf_fail_one α f "" rest]
        · simp [imagesOf, hs, List.filter_cons, imagesOf_fail_one α f s rest]
      · by_cases hs : s = ""
        · subst hs
          simp [imagesOf, h0, List.filter_cons, imagesOf_fail_one α f s0 rest]
        · cases hf : f s <;>
            simp [imagesOf, hs, h0, hf, List.filter_cons,
              imagesOf_fail_one α f s0 rest]

/-- One dispatcher step preserves the multiset of outcomes split
between pending and delivered. -/
theorem dstep_perm {α : Type} {s t : DispatchState α} (h : DStep s t) :
    (s.pending ++ s.delivered).Perm (t.pending ++ t.delivered) := by
  cases h with
  | complete i o p1 p2 d =>
    have h1 : ((p1 ++ (i, o) :: p2) ++ d).Perm (((i, o) :: (p1 ++ p2)) ++ d) :=
      List.perm_middle.append_right d
    have h2 : ((i, o) :: ((p1 ++ p2) ++ d)).Perm (((p1 ++ p2) ++ d) ++ [(i, o)]) :=
      (List.perm_append_singleton _ _).symm
    have h3 := h1.trans h2
    simpa [List.append_assoc] using h3

/-- A run of dispatcher steps preserves the multiset of outcomes split
between pending and delivered. -/
theorem dsteps_perm {α : Type} {s t : DispatchState α} (h : DSteps s t) :
    (s.pending ++ s.delivered).Perm (t.pending ++ t.delivered) := by
  induction h with
  | refl => exact List.Perm.refl _
  | tail _ hstep ih => exact ih.trans (dstep_perm hstep)

/-- A list that is a permutation of a two-element list is one of its
two orderings. -/
theorem perm_pair {β : Type} {l : List β} {a b : β} (h : l.Perm [a, b]) :
    l = [a, b] ∨ l = [b, a] := by
  have hlen := h.length_eq
  rcases l with _ | ⟨x, ltail⟩
  · simp at hlen
  rcases ltail with _ | ⟨y, ltail2⟩
  · simp at hlen
  rcases ltail2 with _ | ⟨z, ltail3⟩
  · have hx : x ∈ [a, b] := h.subset (List.mem_cons_self x [y])
    rcases List.mem_pair.mp hx with hxa | hxb
    · left
      rw [hxa] at h ⊢
      have hy : [y] = [b] := List.perm_singleton.mp h.cons_inv
      simpa using hy
    · right
      rw [hxb] at h ⊢
      have hswap : [a, b].Perm [b, a] := List.Perm.swap b a []
      have hy : [y] = [a] := List.perm_singleton.mp ((h.trans hswap).cons_inv)
      simpa using hy
  · simp only [List.length_cons, List.length_nil] at hlen
    omega

/-- Under the xml.etree invariant that a text node is never the empty
string, the category filter drops exactly the text-less elements. -/
theorem itemCategories_no_empty (u : String → String) :
    ∀ cats : List (Option String), (∀ c ∈ cats, c ≠ some "") →
      cats.filterMap (fun c =>
          match c with
          | some t => if t ≠ "" then some (u (pyStrip t)) else none
          | none => none)
        = cats.filterMap (fun c => c.map (fun t => u (pyStrip t)))
  | [], _ => rfl
  | c :: rest, h => by
    have hrest := itemCategories_no_empty u rest (fun x hx => h x (List.mem_cons_of_mem c hx))
    cases c with
    | none => simpa [List.filterMap_cons] using hrest
    | some t =>
      have ht : t ≠ "" := by
        intro he
        exact (h (some t) (List.mem_cons_self _ _)) (by rw [he])
      simp [List.filterMap_cons, ht]
      simpa using hrest

/-! Claim theorems. -/

/-- C1: for every article document, the images component of
fetch_article is, in document order, exactly the successfully
fetched-and-decoded images of the img elements with a non-empty src
attribute (elements without a usable src are skipped). Making the fetch
of any one URL s0 fail leaves the paragraph list unchanged and removes
only the images of the elements carrying that src, so with one of N
image URLs failing the result still has all valid paragraphs and the
remaining images; the task as a whole never fails, as fetch_article is
total. -/
theorem C1_fetch_article_images_best_effort (α : Type) (u : String → String)
    (f : String → Option α) (s0 : String) (doc : ArticleDoc) :
    (fetch_article u f doc).2
        = doc.imgs.filterMap (fun el => el.src.bind (fun s => if s = "" then none else f s))
    ∧ (fetch_article u (fun s => if s = s0 then none else f s) doc).1
        = (fetch_article u f doc).1
    ∧ (fetch_article u (fun s => if s = s0 then none else f s) doc).2
        = imagesOf f (doc.imgs.filter (fun el => decide (el.src ≠ some s0))) :=
  ⟨imagesOf_eq α f doc.imgs, rfl, imagesOf_fail_one α f s0 doc.imgs⟩

/-- C2: for every valid feed document, fetch_rss returns one Article
per item in document order except that every item whose extracted link
text is empty (link element absent or text-less) is silently excluded;
an item with no title element gets the placeholder title
"(Không tiêu đề)" instead of being dropped (the hypothesis records that
html.unescape fixes the placeholder, which contains no entity). -/
theorem C2_fetch_rss_entries (u : String → String) (body : String)
    (items : List ItemEl) (hu : u "(Không tiêu đề)" = "(Không tiêu đề)") :
    fetch_rss u (Except.ok body) (fun _ => Except.ok items)
        = Except.ok ((items.filter (fun it => decide (itemLink it ≠ ""))).map (mkArticle u))
    ∧ ∀ it : ItemEl, it.title = none → (mkArticle u it).title = "(Không tiêu đề)" := by
  constructor
  · simp [fetch_rss, parseItems_eq]
  · intro it h
    simp [mkArticle, itemTitle, h, findtext, hu]

/-- Feed items exercising the witness for C2 and C5: a normal item, an
item with no title and no link (dropped, would have taken the
placeholder title), and an item whose link element has no text
(dropped). -/
def itemsW : List ItemEl :=
  [⟨some (some "A"), some (some "http://a"), [some " x "]⟩,
   ⟨none, none, []⟩,
   ⟨some (some "B"), some none, [none]⟩]

/-- Witness for C2 at a concrete feed: only the item with a usable link
survives. -/
theorem C2_witness :
    fetch_rss id (Except.ok "feed") (fun _ => Except.ok itemsW)
      = Except.ok [Article.mk "A" "http://a" ["x"]] :=
  ((C2_fetch_rss_entries id "feed" itemsW rfl).1).trans rfl

/-- C3: for every article document, the paragraphs component of
fetch_article keeps, in document order, exactly the paragraph elements
whose stripped text is non-empty, each contributing the unescape of its
stripped text; elements whose stripped text is empty are excluded. -/
theorem C3_fetch_article_paragraphs (α : Type) (u : String → String)
    (f : String → Option α) (doc : ArticleDoc) :
    (fetch_article u f doc).1
      = ((doc.ps.map (fun p => pyStrip p.text)).filter (fun t => decide (t ≠ ""))).map u :=
  paragraphsOf_eq u doc.ps

/-- C4: for every feed fetch failing with a transport error or a parse
error, the whole task fails: the handler schedules exactly one error
notification followed by re-enabling the load control, schedules no
populate action (no partial article list is displayed), and — being a
total function — never lets the failure escape as an unhandled fault;
transport and parse failures of fetch_rss both surface as such error
outcomes. -/
theorem C4_feed_failure_handling (u : String → String)
    (parseXml : String → Except String (List ItemEl))
    (e : FeedError) (res : Except FeedError (List Article))
    (hres : res = Except.error e) :
    handle_feed_result res
        = [UIAction.showError "Lỗi tải RSS" e.message, UIAction.enableLoadButton]
    ∧ (∀ arts : List Article, UIAction.populate arts ∉ handle_feed_result res)
    ∧ (∀ m : String, fetch_rss u (Except.error m) parseXml
          = Except.error (FeedError.transport m))
    ∧ (∀ body m, parseXml body = Except.error m →
          fetch_rss u (Except.ok body) parseXml = Except.error (FeedError.parseFail m)) := by
  subst hres
  refine ⟨rfl, ?_, ?_, ?_⟩
  · intro arts hmem
    simp [handle_feed_result] at hmem
  · intro m
    rfl
  · intro body m hp
    simp [fetch_rss, hp]

/-- Witness for C4 at a concrete transport failure. -/
theorem C4_witness :
    handle_feed_result (Except.error (FeedError.transport "connection refused"))
      = [UIAction.showError "Lỗi tải RSS" "connection refused", UIAction.enableLoadButton] :=
  (C4_feed_failure_handling id (fun _ => Except.ok [])
      (FeedError.transport "connection refused")
      (Except.error (FeedError.transport "connection refused")) rfl).1

/-- C5: every Article returned by the item loop takes its title from
the entity-decode of its item's extracted title text, and each of its
category labels is the entity-decode of the stripped text of one of
that item's category elements. -/
theorem C5_decoded_title_categories (u : String → String) (items : List ItemEl)
    (a : Article) (ha : a ∈ parseItems u items) :
    ∃ it ∈ items, a.title = u (findtext it.title "(Không tiêu đề)")
      ∧ ∀ c ∈ a.categories, ∃ t : String, some t ∈ it.categories ∧ c = u (pyStrip t) := by
  rw [parseItems_eq] at ha
  rcases List.mem_map.mp ha with ⟨it, hit, rfl⟩
  refine ⟨it, List.mem_of_mem_filter hit, rfl, ?_⟩
  intro c hc
  have hc2 : c ∈ it.categories.filterMap (fun o =>
      match o with
      | some t => if t ≠ "" then some (u (pyStrip t)) else none
      | none => none) := hc
  rcases List.mem_filterMap.mp hc2 with ⟨copt, hcopt, heq⟩
  cases copt with
  | none => simp at heq
  | some t =>
    by_cases ht : t = ""
    · rw [ht] at heq
      simp at heq
    · refine ⟨t, hcopt, ?_⟩
      simp [ht] at heq
      exact heq.symm

/-- Witness for C5 at the concrete feed items: the surviving article's
title and category trace back to its item's raw texts. -/
theorem C5_witness :
    ∃ it ∈ itemsW,
      (Article.mk "A" "http://a" ["x"]).title = id (findtext it.title "(Không tiêu đề)")
      ∧ ∀ c ∈ (Article.mk "A" "http://a" ["x"]).categories,
          ∃ t : String, some t ∈ it.categories ∧ c = id (pyStrip t) :=
  C5_decoded_title_categories id itemsW (Article.mk "A" "http://a" ["x"]) (by decide)

/-- C6: display_article pairs paragraph i with image i while both
exist, and once the shorter sequence is exhausted the remaining items
of the longer one are appended at the end in their own order; hence
every paragraph and every image appears exactly once, with relative
order preserved within each sequence. -/
theorem C6_display_interleaving (α : Type) (ps : List String) (imgs : List α) :
    display_article_body ps imgs
      = zipInterleave (ps.zip imgs)
        ++ ((ps.drop imgs.length).map DisplayItem.para)
        ++ ((imgs.drop ps.length).map DisplayItem.image) := by
  induction ps generalizing imgs with
  | nil => simp [display_article_body, zipInterleave]
  | cons p tl ih =>
    cases imgs with
    | nil => simp [display_article_body, zipInterleave, ih]
    | cons im imtl => simp [display_article_body, zipInterleave, List.zip, ih]

/-- C7: for two units of work submitted together and completing in
either order, any complete run of the dispatcher delivers each unit's
outcome exactly once to the UI thread — the delivered list is exactly
the two tagged outcomes, in one of the two completion orders, so no
outcome is lost or duplicated. -/
theorem C7_dispatch_exactly_once (α : Type) (o1 o2 : Outcome α) (s : DispatchState α)
    (h : DSteps ⟨[(1, o1), (2, o2)], []⟩ s) (hdone : s.pending = []) :
    s.delivered = [(1, o1), (2, o2)] ∨ s.delivered = [(2, o2), (1, o1)] := by
  have hperm := dsteps_perm h
  rw [hdone] at hperm
  simp only [List.append_nil, List.nil_append] at hperm
  exact perm_pair hperm.symm

/-- Witness for C7: a concrete run completing the second unit first
delivers both outcomes, each exactly once. -/
theorem C7_witness :
    DSteps (⟨[(1, Outcome.ok 0), (2, Outcome.ok 1)], []⟩ : DispatchState Nat)
        ⟨[], [(2, Outcome.ok 1), (1, Outcome.ok 0)]⟩
    ∧ ([(2, Outcome.ok 1), (1, Outcome.ok 0)]
          = [(1, Outcome.ok 0), (2, Outcome.ok 1)]
        ∨ [(2, Outcome.ok 1), (1, Outcome.ok 0)]
          = [(2, Outcome.ok 1), (1, Outcome.ok 0)]) := by
  have step1 : DStep (⟨[(1, Outcome.ok 0), (2, Outcome.ok 1)], []⟩ : DispatchState Nat)
      ⟨[(1, Outcome.ok 0)], [(2, Outcome.ok 1)]⟩ :=
    DStep.complete 2 (Outcome.ok 1) [(1, Outcome.ok 0)] [] []
  have step2 : DStep (⟨[(1, Outcome.ok 0)], [(2, Outcome.ok 1)]⟩ : DispatchState Nat)
      ⟨[], [(2, Outcome.ok 1), (1, Outcome.ok 0)]⟩ :=
    DStep.complete 1 (Outcome.ok 0) [] [] [(2, Outcome.ok 1)]
  have run : DSteps (⟨[(1, Outcome.ok 0), (2, Outcome.ok 1)], []⟩ : DispatchState Nat)
      ⟨[], [(2, Outcome.ok 1), (1, Outcome.ok 0)]⟩ :=
    Relation.ReflTransGen.tail (Relation.ReflTransGen.single step1) step2
  exact ⟨run, C7_dispatch_exactly_once Nat (Outcome.ok 0) (Outcome.ok 1) _ run rfl⟩

/-- C8: a successful reload replaces the article list wholesale — the
resulting state does not depend on the previous state at all, its
article list is exactly the fetched list (no merging, no
deduplication), and the selection state (current link, current
categories, held image references, content pane, category label, link
button) is reset. -/
theorem C8_populate_replaces (α : Type) (st st' : UIState α) (arts : List Article) :
    populate_list st arts = populate_list st' arts
    ∧ (populate_list st arts).articles = arts
    ∧ (populate_list st arts).currentArticleLink = none
    ∧ (populate_list st arts).currentCategories = []
    ∧ (populate_list st arts).imageRefs = []
    ∧ (populate_list st arts).linkButtonEnabled = false
    ∧ (populate_list st arts).categoryVar = "Danh mục: -"
    ∧ (populate_list st arts).contentText
        = (if arts = [] then "Không tìm thấy bài viết nào." else "") :=
  ⟨rfl, rfl, rfl, rfl, rfl, rfl, rfl, rfl⟩

/-- C9: a feed item whose title element is present but has no text
yields the empty string as title (findtext returns "" for a text-less
element, and html.unescape fixes ""); whenever the title element is
present the title is the unescape of its extracted text, so the
placeholder branch is taken only when the element is absent. -/
theorem C9_empty_title_text (u : String → String) (it : ItemEl) (hu : u "" = "") :
    (it.title = some none → (mkArticle u it).title = "")
    ∧ (∀ t : Option String, it.title = some t →
        (mkArticle u it).title = u (t.getD "")) := by
  constructor
  · intro h
    simp [mkArticle, itemTitle, h, findtext, hu]
  · intro t h
    cases t <;> simp [mkArticle, itemTitle, h, findtext]

/-- Witness for C9 at a concrete item with an empty title element. -/
theorem C9_witness :
    (mkArticle id (⟨some none, some (some "L"), []⟩ : ItemEl)).title = "" :=
  (C9_empty_title_text id ⟨some none, some (some "L"), []⟩ rfl).1 rfl

/-- C10: the category guard tests the raw text before stripping, so a
category element with non-empty, all-whitespace text contributes the
empty string to the categories list; under the xml.etree invariant that
a text node is never the empty string, exactly the category elements
with no text node are dropped. -/
theorem C10_whitespace_category (u : String → String) (it : ItemEl) (hu : u "" = "")
    (hne : ∀ c ∈ it.categories, c ≠ some "") :
    (∀ t : String, some t ∈ it.categories → pyStrip t = "" →
        "" ∈ (mkArticle u it).categories)
    ∧ (mkArticle u it).categories
        = it.categories.filterMap (fun c => c.map (fun t => u (pyStrip t))) := by
  constructor
  · intro t hmem hstrip
    have ht : t ≠ "" := fun he => (hne (some t) hmem) (by rw [he])
    show "" ∈ it.categories.filterMap (fun o =>
        match o with
        | some t2 => if t2 ≠ "" then some (u (pyStrip t2)) else none
        | none => none)
    refine List.mem_filterMap.mpr ⟨some t, hmem, ?_⟩
    simp [ht, hstrip, hu]
  · exact itemCategories_no_empty u it.categories hne

/-- Item exercising the witness for C10: a whitespace-only category, a
text-less category, and an ordinary one. -/
def itC : ItemEl := ⟨some (some "T"), some (some "L"), [some "  ", none, some " y "]⟩

/-- Witness for C10: the whitespace-only category yields the empty
label. -/
theorem C10_witness :
    "" ∈ (mkArticle id itC).categories :=
  (C10_whitespace_category id itC rfl (by decide)).1 "  " (by decide) rfl

end NewsReader
